import Mathlib

/-!
# Verification of `codalab/worker/download_util.py`

This file gives a shallow embedding of the path-resolution and
target-indexing code of `codalab/worker/download_util.py`, together with
models of the Python string primitives it relies on
(`str.split`, `str.replace`, `str.startswith`, `os.path.normpath`,
`os.path.basename`, `os.path.join`), and proves properties of the
embedded code.

Filesystem and blob-store effects are made explicit: `os.path.realpath`
and `os.path.islink` are passed in as function parameters, the local
filesystem is a partial map from path strings to stat results, and the
Azure blob store is a record holding the archive's entry list (what
`ZipFile(FileSystems.open(zip_path)).infolist()` would return) and the
metadata of a plain blob (what `FileSystems.match` would return).
-/

/-! ## Python string primitives -/

/-- Python `s.split(sep)` for a one-character separator, on character lists.
`splitChar c l` always returns a non-empty list of (possibly empty) segments. -/
def splitChar (c : Char) : List Char → List (List Char)
  | [] => [[]]
  | x :: xs =>
    match splitChar c xs with
    | [] => [[]]
    | h :: t => if x == c then [] :: h :: t else (x :: h) :: t

/-- Python `s.split(sep)` for a one-character separator, producing strings. -/
def pySplit (c : Char) (s : String) : List String :=
  (splitChar c s.data).map (fun l => String.mk l)

/-- Python `s.startswith(pre)`. -/
def startswith (pre s : String) : Bool :=
  List.isPrefixOf pre.data s.data

/-- Python `s.endswith(suf)`. -/
def endswith (suf s : String) : Bool :=
  List.isSuffixOf suf.data s.data

/-- Python `s.lstrip("/")`: drop every leading `/`. -/
def lstripSlash (s : String) : String :=
  String.mk (s.data.dropWhile (fun c => c == '/'))

/-- Python `s.rstrip("/")`: drop every trailing `/`. -/
def rstripSlash (s : String) : String :=
  String.mk ((s.data.reverse.dropWhile (fun c => c == '/')).reverse)

/-- Python `os.path.basename(p)` on POSIX: the text after the last `/`. -/
def basename (p : String) : String :=
  (pySplit '/' p).getLastD ""

/-- The helper `get_last_part` defined inside `_compute_target_info_beam`
(`download_util.py` lines 176-178): `path.split("/")[-1]`. -/
def get_last_part (path : String) : String :=
  (pySplit '/' path).getLastD ""

/-- Python `posixpath.join(a, b)` for two arguments. -/
def pyJoin (a b : String) : String :=
  if startswith "/" b then b
  else if a = "" ∨ endswith "/" a then a ++ b
  else a ++ "/" ++ b

/-- Auxiliary loop of Python `s.replace(old, new)` for non-empty `old`:
replace non-overlapping occurrences left to right.  The `fuel` argument
makes the recursion structural (each step consumes at least one input
character, so `fuel = l.length` always suffices); skipping a matched
occurrence drops `old.length` characters, written `x :: xs ↦ drop
(old.length - 1) xs`. -/
def pyReplaceAux (old new : List Char) : Nat → List Char → List Char
  | _, [] => []
  | 0, l => l
  | fuel + 1, x :: xs =>
    if List.isPrefixOf old (x :: xs) then
      new ++ pyReplaceAux old new fuel (List.drop (old.length - 1) xs)
    else
      x :: pyReplaceAux old new fuel xs

/-- Python `s.replace(old, new)`: for empty `old`, Python inserts `new`
before every character and at the end; otherwise replace each
non-overlapping occurrence. -/
def pyReplace (s old new : String) : String :=
  if old.data = [] then
    String.mk (new.data ++ (s.data.map (fun c => c :: new.data)).flatten)
  else
    String.mk (pyReplaceAux old.data new.data s.data.length s.data)

deriving instance DecidableEq for Except

/-- The two-character component `..`. -/
def dotdotComp : List Char := ['.', '.']

/-- The component-collapsing loop of CPython `posixpath.normpath`:
skip empty and `.` components; append a component unless it is `..`
that can be popped; `..` at an absolute root is dropped. -/
def normComps (initialSlashes : Nat) : List (List Char) → List (List Char) → List (List Char)
  | acc, [] => acc
  | acc, comp :: rest =>
    if comp = [] ∨ comp = ['.'] then normComps initialSlashes acc rest
    else if comp ≠ dotdotComp ∨ (initialSlashes = 0 ∧ acc = []) ∨
        (acc ≠ [] ∧ acc.getLast? = some dotdotComp) then
      normComps initialSlashes (acc ++ [comp]) rest
    else if acc ≠ [] then normComps initialSlashes acc.dropLast rest
    else normComps initialSlashes acc rest

/-- CPython `posixpath.normpath`: collapse `.`/`..`/`//` textually,
without consulting the filesystem (symbolic links are not resolved). -/
def normpath (path : String) : String :=
  if path = "" then "." else
  let initialSlashes : Nat :=
    if startswith "/" path then
      (if startswith "//" path ∧ ¬ startswith "///" path then 2 else 1)
    else 0
  let comps := splitChar '/' path.data
  let newComps := normComps initialSlashes [] comps
  let res := List.replicate initialSlashes '/' ++ List.intercalate ['/'] newComps
  if res = [] then "." else String.mk res

/-! ## The path resolver (`download_util.py` lines 6-114)

`BundleTarget`, `_get_target_path`, `_get_normalized_target_path` and
`get_target_path`.  `PathException` failures are modelled as the
`Except.error` constructor carrying the exception's message string.
`os.path.realpath` (a filesystem operation) is passed in as the function
parameter `realpathF`, and `os.path.islink` as `islink`. -/

/-- `BundleTarget` (`download_util.py` lines 10-39). -/
structure BundleTarget where
  bundle_uuid : String
  subpath : String
deriving DecidableEq, Repr

/-- `_get_target_path(bundle_path, path)` (lines 108-114): concatenate with
`os.path.sep` (POSIX `/`) instead of `os.path.join`, so that an absolute
subpath cannot override the bundle path; an empty subpath yields
`bundle_path` itself. -/
def get_target_path_inner (bundle_path path : String) : String :=
  if path = "" then bundle_path else bundle_path ++ "/" ++ path

/-- Line 96: `bundle_path if bundle_path.startswith("azfs://") else
os.path.realpath(bundle_path)`. -/
def real_root (realpathF : String → String) (bundle_path : String) : String :=
  if startswith "azfs://" bundle_path then bundle_path else realpathF bundle_path

/-- Lines 97-99: the concatenated target path, normalized with
`os.path.normpath` unless it is an `azfs://` location. -/
def normalized_candidate (realpathF : String → String) (bundle_path : String)
    (target : BundleTarget) : String :=
  let p := get_target_path_inner (real_root realpathF bundle_path) target.subpath
  if startswith "azfs://" p then p else normpath p

/-- Line 100: `error_path = _get_target_path(target.bundle_uuid, target.subpath)`,
the sanitized path used in every error message of the resolver. -/
def error_path (target : BundleTarget) : String :=
  get_target_path_inner target.bundle_uuid target.subpath

/-- `_get_normalized_target_path(bundle_path, target)` (lines 95-105):
raises `PathException` when the normalized target path does not textually
start with the real bundle path. -/
def get_normalized_target_path (realpathF : String → String) (bundle_path : String)
    (target : BundleTarget) : Except String String :=
  if startswith (real_root realpathF bundle_path)
      (normalized_candidate realpathF bundle_path target) then
    Except.ok (normalized_candidate realpathF bundle_path target)
  else Except.error (error_path target ++ " is not inside the bundle.")

/-- `get_target_path(bundle_path, target)` (lines 76-89): resolve, then
refuse to return a path that is itself a symbolic link. -/
def get_target_path (realpathF : String → String) (islink : String → Bool)
    (bundle_path : String) (target : BundleTarget) : Except String String :=
  match get_normalized_target_path realpathF bundle_path target with
  | Except.error msg => Except.error msg
  | Except.ok final_path =>
    if islink final_path then
      Except.error (error_path target ++ " is a symlink and following symlinks is not allowed.")
    else Except.ok final_path

/-! ## Spec-side notions used to state the claims -/

/-- The subpath contains a `..` path component. -/
def subpath_has_dotdot (s : String) : Bool :=
  (splitChar '/' s.data).contains dotdotComp

/-- `p` denotes the root itself or a path inside the root *directory*
(the root string followed by a separator), as opposed to the purely
textual prefix test the code performs. -/
def located_inside (root p : String) : Bool :=
  p == root || startswith (root ++ "/") p

/-! ## The metadata tree and Python exceptions -/

/-- The Python exceptions that the indexing code can raise.
`pathException` is the repository's declared `PathException`;
`keyError` is raised by `ZipFile.getinfo` for a missing member (carrying
the requested member name); `genericException` is the bare
`raise Exception((path, zip_subpath))` at line 145; `indexError` is the
list indexing in `FileSystems.match([path])[0].metadata_list[0]` failing
for an absent blob; `osError` is `os.lstat` failing on a missing local
path. -/
inductive PyError where
  | pathException : String → PyError
  | keyError : String → PyError
  | genericException : String → String → PyError
  | indexError : PyError
  | osError : PyError
deriving DecidableEq, Repr

/-- The metadata dictionary built by `_compute_target_info` /
`_compute_target_info_beam`: fields `name`, `type`, `size`, `perm` are
always present (`type` is absent for a local path that is neither link,
file nor directory), `link` is present for symbolic links, `contents`
for directories within the depth budget, and `fs` / `e` are the extra
keys the beam variant adds. -/
inductive TargetInfo where
  | mk : (name : String) → (type : Option String) → (size : Nat) → (perm : Nat) →
      (link : Option String) → (contents : Option (List TargetInfo)) →
      (fs : Option String) → (e : Option (List String)) → TargetInfo

def TargetInfo.name : TargetInfo → String
  | TargetInfo.mk n _ _ _ _ _ _ _ => n

def TargetInfo.type : TargetInfo → Option String
  | TargetInfo.mk _ ty _ _ _ _ _ _ => ty

def TargetInfo.size : TargetInfo → Nat
  | TargetInfo.mk _ _ sz _ _ _ _ _ => sz

def TargetInfo.perm : TargetInfo → Nat
  | TargetInfo.mk _ _ _ pm _ _ _ _ => pm

def TargetInfo.link : TargetInfo → Option String
  | TargetInfo.mk _ _ _ _ lk _ _ _ => lk

def TargetInfo.contents : TargetInfo → Option (List TargetInfo)
  | TargetInfo.mk _ _ _ _ _ cs _ _ => cs

def TargetInfo.fs : TargetInfo → Option String
  | TargetInfo.mk _ _ _ _ _ _ fsv _ => fsv

def TargetInfo.e : TargetInfo → Option (List String)
  | TargetInfo.mk _ _ _ _ _ _ _ ev => ev

/-- Replace the `contents`, `fs` and `e` fields of a node (the mutations
`base['contents'] = ...`, `base['fs'] = 'azure'`, `base['e'] = ...`
performed on the `base` dictionary at lines 181-189). -/
def TargetInfo.withExtras : TargetInfo → Option (List TargetInfo) → Option String →
    Option (List String) → TargetInfo
  | TargetInfo.mk n ty sz pm lk _ _ _, cs, fsv, ev => TargetInfo.mk n ty sz pm lk cs fsv ev

/-! ## The Azure/beam side (`_compute_target_info_beam`, lines 141-191) -/

/-- One entry of `ZipFile(...).infolist()`: the member name and its
uncompressed size.  CPython's `ZipInfo.is_dir()` tests for a trailing
separator in the name, so no separate flag is carried. -/
structure ZipEntry where
  filename : String
  file_size : Nat
deriving DecidableEq, Repr

/-- CPython `ZipInfo.is_dir()`: the filename ends with `/`. -/
def zip_is_dir (zi : ZipEntry) : Bool :=
  endswith "/" zi.filename

/-- CPython `ZipFile.getinfo(name)`: exact-name lookup in the member
table (built in file order, later duplicates overwrite earlier ones);
`none` models the `KeyError` for a missing member. -/
def getinfo (f : List ZipEntry) (name : String) : Option ZipEntry :=
  (f.filter (fun zi => zi.filename = name)).getLast?

/-- Metadata of a plain (non-archive) blob as returned by
`FileSystems.match([path])[0].metadata_list[0]`. -/
structure FileMeta where
  path : String
  size_in_bytes : Nat
deriving DecidableEq, Repr

/-- The remote blob store as `_compute_target_info_beam` observes it:
`archive` is the entry list of the bundle's `contents.zip` (every level
of the recursion reopens the same blob), and `single` is the metadata of
the blob when the location names a plain file (`none` when no blob
matches). -/
structure BeamStore where
  archive : List ZipEntry
  single : Option FileMeta

/-- The URL built for the recursive call at line 188:
`azfs://storageclwsdev0/bundles/{bundle_uuid}/contents.zip/{filename}`. -/
def mkAzUrl (bundle_uuid filename : String) : String :=
  "azfs://storageclwsdev0/bundles/" ++ bundle_uuid ++ "/contents.zip/" ++ filename

/-- Modelled from the spec: `codalab.lib.path_util.parse_azure_url` is not
under `src/` (only its caller is).  Per the spec (§3), remote-archive
locators have the form `scheme://store/bundle/archive-path[/internal-path]`,
and the indexer's own recursive calls build
`azfs://storageclwsdev0/bundles/{uuid}/contents.zip/{internal}`.  The
model: the bundle uuid is the third segment after the scheme; when the
fourth segment is the archive name `contents.zip`, the zip path is the
locator truncated after it and the internal path is the remainder
(preserving a trailing separator); otherwise the locator names a plain
blob (no zip path, empty internal path). -/
def parse_azure_url (url : String) : String × Option String × String :=
  if startswith "azfs://" url then
    match pySplit '/' (String.mk (url.data.drop 7)) with
    | acct :: cont :: uuid :: "contents.zip" :: tail =>
      (uuid, some ("azfs://" ++ acct ++ "/" ++ cont ++ "/" ++ uuid ++ "/contents.zip"),
        String.intercalate "/" tail)
    | _ => (url, none, "")
  else (url, none, "")

/-- The shared tail of the two directory branches of
`_compute_target_info_beam` (lines 176-191): compute `dirs` (directory
members *not* under the requested prefix), filter the member list, set
`base['e']`, recurse into directory members when the depth budget is
positive (`recOpt = some _`), and tag the node with `fs = azure`. -/
def beamDir (store : BeamStore) (recOpt : Option (String → Except PyError TargetInfo))
    (bundle_uuid zip_subpath path : String) (base : TargetInfo) : Except PyError TargetInfo :=
  let f := store.archive
  let dirs := (f.filter (fun zi => zip_is_dir zi && !(startswith zip_subpath zi.filename))).map
    ZipEntry.filename
  let keep : ZipEntry → Bool := fun zi =>
    startswith zip_subpath zi.filename &&
      !((dirs.any (fun i => startswith i zi.filename)) && !(zip_is_dir zi))
  let eList := (f.filter keep).map (fun zi =>
    rstripSlash (pyReplace path zip_subpath "") ++ "/" ++ lstripSlash zi.filename)
  match recOpt with
  | none => Except.ok (base.withExtras none (some "azure") (some eList))
  | some recurse =>
    match (f.filter keep).mapM (fun zi =>
        if zip_is_dir zi then recurse (mkAzUrl bundle_uuid zi.filename)
        else Except.ok (TargetInfo.mk (get_last_part zi.filename) (some "file") zi.file_size
          0o777 none none none none)) with
    | Except.error err => Except.error err
    | Except.ok cs => Except.ok (base.withExtras (some cs) (some "azure") (some eList))

/-- The body of `_compute_target_info_beam` after `parse_azure_url`
(lines 144-191), with the parsed triple passed in explicitly.  The check
`zip_subpath == "/images/"` raises a bare `Exception((path, zip_subpath))`;
a missing `zip_path` means a plain blob; an empty `zip_subpath` presents
the whole archive as one directory named after the bundle uuid whose size
is the sum of all entry sizes; a member that is a plain file returns a
single file node tagged `fs = azure`; a directory member goes through
`beamDir`. -/
def beamParsed (store : BeamStore) (recOpt : Option (String → Except PyError TargetInfo))
    (path bundle_uuid : String) (zip_path : Option String) (zip_subpath : String) :
    Except PyError TargetInfo :=
  if zip_subpath = "/images/" then Except.error (PyError.genericException path zip_subpath)
  else
    match zip_path with
    | none =>
      match store.single with
      | some file => Except.ok (TargetInfo.mk (basename file.path) (some "file")
          file.size_in_bytes 0o777 none none none none)
      | none => Except.error PyError.indexError
    | some _ =>
      let f := store.archive
      if zip_subpath = "" then
        beamDir store recOpt bundle_uuid zip_subpath path
          (TargetInfo.mk bundle_uuid (some "directory") ((f.map ZipEntry.file_size).sum)
            0o777 none none none none)
      else
        match getinfo f zip_subpath with
        | none => Except.error (PyError.keyError zip_subpath)
        | some zipinfo =>
          if zip_is_dir zipinfo = false then
            Except.ok (TargetInfo.mk zipinfo.filename (some "file") zipinfo.file_size
              0o777 none none (some "azure") none)
          else
            beamDir store recOpt bundle_uuid zip_subpath path
              (TargetInfo.mk zipinfo.filename (some "directory") zipinfo.file_size
                0o777 none none none none)

/-- One level of `_compute_target_info_beam(path, depth)`: parse the
locator (line 143) and dispatch; `recOpt` carries the recursive call for
`depth - 1` when `depth > 0`. -/
def beamCore (store : BeamStore) (recOpt : Option (String → Except PyError TargetInfo))
    (path : String) : Except PyError TargetInfo :=
  match parse_azure_url path with
  | (bundle_uuid, zip_path, zip_subpath) =>
    beamParsed store recOpt path bundle_uuid zip_path zip_subpath

/-- `_compute_target_info_beam(path, depth)` (lines 141-191).  The
recursion consumes one unit of depth per directory level; at depth `0`
no `contents` are computed. -/
def compute_target_info_beam (store : BeamStore) : Nat → String → Except PyError TargetInfo
  | 0, path => beamCore store none path
  | Nat.succ d, path => beamCore store (some (compute_target_info_beam store d)) path

/-! ## The local-filesystem side (`_compute_target_info`, lines 117-139) -/

/-- What `os.lstat` plus the `islink`/`isfile`/`isdir` tests observe at a
local path: the raw `st_mode`, the size, and the kind (a symbolic link
carries its `os.readlink` target, a directory carries its `os.listdir`
entry names in listing order; `other` covers paths that are none of the
three, e.g. sockets). -/
inductive FSKind where
  | file : FSKind
  | link : String → FSKind
  | dir : List String → FSKind
  | other : FSKind
deriving DecidableEq, Repr

structure FSStat where
  st_mode : Nat
  st_size : Nat
  kind : FSKind
deriving DecidableEq, Repr

/-- One level of `_compute_target_info(path, depth)` for a non-`azfs://`
path: `os.lstat`, then the link/file/directory tests in order.
`st_mode & 0o777` is the low nine permission bits, written `% 512`.
`recOpt` carries the recursive call for `depth - 1` when `depth > 0`. -/
def localCore (fsys : String → Option FSStat)
    (recOpt : Option (String → Except PyError TargetInfo)) (path : String) :
    Except PyError TargetInfo :=
  match fsys path with
  | none => Except.error PyError.osError
  | some st =>
    let nm := basename path
    let pm := st.st_mode % 512
    match st.kind with
    | FSKind.link target =>
      Except.ok (TargetInfo.mk nm (some "link") st.st_size pm (some target) none none none)
    | FSKind.file =>
      Except.ok (TargetInfo.mk nm (some "file") st.st_size pm none none none none)
    | FSKind.dir entries =>
      match recOpt with
      | none => Except.ok (TargetInfo.mk nm (some "directory") st.st_size pm none none none none)
      | some recurse =>
        match entries.mapM (fun file_name => recurse (pyJoin path file_name)) with
        | Except.error err => Except.error err
        | Except.ok cs =>
          Except.ok (TargetInfo.mk nm (some "directory") st.st_size pm none (some cs) none none)
    | FSKind.other =>
      Except.ok (TargetInfo.mk nm none st.st_size pm none none none none)

/-- `_compute_target_info(path, depth)` (lines 117-139): `azfs://`
locations are delegated whole to `_compute_target_info_beam`; all others
use `os.lstat` introspection, recursing into directory entries with
`depth - 1` while `depth > 0`. -/
def compute_target_info (fsys : String → Option FSStat) (store : BeamStore) :
    Nat → String → Except PyError TargetInfo
  | 0, path =>
    if startswith "azfs://" path then compute_target_info_beam store 0 path
    else localCore fsys none path
  | Nat.succ d, path =>
    if startswith "azfs://" path then compute_target_info_beam store (Nat.succ d) path
    else localCore fsys (some (compute_target_info fsys store d)) path

/-- `get_target_info(bundle_path, target, depth)` (lines 42-73): resolve
the target, apply the existence check (skipped for `azfs://` locations
and for symbolic links), index, and attach `resolved_target`.  The
returned pair models the `info['resolved_target'] = target` assignment. -/
def get_target_info (realpathF : String → String) (islink existsF : String → Bool)
    (fsys : String → Option FSStat) (store : BeamStore)
    (bundle_path : String) (target : BundleTarget) (depth : Nat) :
    Except PyError (TargetInfo × BundleTarget) :=
  match get_normalized_target_path realpathF bundle_path target with
  | Except.error msg => Except.error (PyError.pathException msg)
  | Except.ok final_path =>
    if !(startswith "azfs://" final_path) && !(islink final_path) && !(existsF final_path) then
      Except.error (PyError.pathException
        ("Path " ++ target.bundle_uuid ++ " in bundle " ++ target.subpath ++ " not found"))
    else
      match compute_target_info fsys store depth final_path with
      | Except.error err => Except.error err
      | Except.ok info => Except.ok (info, target)

/-! ## Incremental decompression (StreamingZipReader, spec §4.4)

Modelled from the spec: `codalab/lib/beam/streamingzipfile.py` is not
under `src/` (only its unit test is).  Spec §4.4 describes the handle
returned by `open_entry` as performing decompression incrementally over
an append-only byte source: the consumer may read some decompressed
bytes, the producer may append more compressed bytes, and reading
resumes seamlessly without reinitialising decompression state.  The
model keeps the decompressor abstract as a function `D` from the
compressed bytes consumed so far to the decompressed bytes they
determine; a streaming decompressor is *monotone*: feeding more input
only extends the output (`D xs` is a prefix of `D (xs ++ ys)`), and no
input yields no output.  The resumable reader state records the bytes
fed so far and how many decompressed bytes were already handed out. -/

/-- The resumable state of an `open_entry` handle: compressed bytes fed
so far, and the count of decompressed bytes already returned. -/
structure DecompState where
  fed : List Nat
  emitted : Nat
deriving DecidableEq, Repr

/-- Append newly written compressed bytes to the source (the producer
side of the shared buffer). -/
def feedChunk (st : DecompState) (chunk : List Nat) : DecompState :=
  DecompState.mk (st.fed ++ chunk) st.emitted

/-- Read every decompressed byte now available (the consumer never
requests past what the fed bytes determine): return the bytes after the
ones already emitted, advancing the state without reinitialising it. -/
def readAvailable (D : List Nat → List Nat) (st : DecompState) : List Nat × DecompState :=
  let out := (D st.fed).drop st.emitted
  (out, DecompState.mk st.fed (st.emitted + out.length))

/-- Feed one chunk, then drain the available output. -/
def stepChunk (D : List Nat → List Nat) (acc : List Nat) (st : DecompState)
    (chunk : List Nat) : List Nat × DecompState :=
  let st1 := feedChunk st chunk
  let p := readAvailable D st1
  (acc ++ p.1, p.2)

/-- Decompress an entry body while the source is appended to chunk by
chunk, concatenating everything the consumer reads, starting from a
fresh handle. -/
def runChunked (D : List Nat → List Nat) (chunks : List (List Nat)) : List Nat :=
  (chunks.foldl (fun p c => stepChunk D p.1 p.2 c) ([], DecompState.mk [] 0)).1

/-- The compressed chunks of the spec's concrete scenario: the 11 bytes
of `"hello world"` (a stored, method-0 entry: compressed = raw) written
one byte at a time. -/
def helloChunks : List (List Nat) :=
  [[104], [101], [108], [108], [111], [32], [119], [111], [114], [108], [100]]

/-- The expected decompressed bytes, `"hello world"`. -/
def helloBytes : List Nat :=
  [104, 101, 108, 108, 111, 32, 119, 111, 114, 108, 100]

/-- The archive fixture of the spec's `ZipVirtualFilesystem` property
(`streamingzipfile_test.py`, `create_zip_complex`): entries `a/`, `a/b/`,
`a/b/file.txt`, `c/`, `c/d/`, `c/d/e/`, `file.txt`. -/
def zipC2 : List ZipEntry :=
  [ZipEntry.mk "a/" 0, ZipEntry.mk "a/b/" 0, ZipEntry.mk "a/b/file.txt" 11,
   ZipEntry.mk "c/" 0, ZipEntry.mk "c/d/" 0, ZipEntry.mk "c/d/e/" 0,
   ZipEntry.mk "file.txt" 11]

/-- The names of the direct children in a successful indexing result
(empty for failures or absent `contents`). -/
def okContentsNames (r : Except PyError TargetInfo) : List String :=
  match r with
  | Except.ok t => (t.contents.getD []).map TargetInfo.name
  | Except.error _ => []

/-! ## Structural lemmas -/

theorem TargetInfo.withExtras_type (base : TargetInfo) (cs : Option (List TargetInfo))
    (fsv : Option String) (ev : Option (List String)) :
    (base.withExtras cs fsv ev).type = base.type := by
  cases base
  rfl

theorem TargetInfo.withExtras_contents (base : TargetInfo) (cs : Option (List TargetInfo))
    (fsv : Option String) (ev : Option (List String)) :
    (base.withExtras cs fsv ev).contents = cs := by
  cases base
  rfl

theorem beamDir_ok_shape (store : BeamStore) (recOpt : Option (String → Except PyError TargetInfo))
    (bundle_uuid zip_subpath path : String) (base : TargetInfo) (t : TargetInfo)
    (h : beamDir store recOpt bundle_uuid zip_subpath path base = Except.ok t) :
    t.type = base.type ∧ t.contents.isSome = recOpt.isSome := by
  unfold beamDir at h
  cases recOpt with
  | none =>
    simp only [Except.ok.injEq] at h
    subst h
    simp [TargetInfo.withExtras_type, TargetInfo.withExtras_contents]
  | some recurse =>
    simp only at h
    split at h
    · exact absurd h (by simp)
    · simp only [Except.ok.injEq] at h
      subst h
      simp [TargetInfo.withExtras_type, TargetInfo.withExtras_contents]

theorem beamParsed_ok_shape (store : BeamStore)
    (recOpt : Option (String → Except PyError TargetInfo))
    (path bundle_uuid : String) (zip_path : Option String) (zip_subpath : String)
    (t : TargetInfo)
    (h : beamParsed store recOpt path bundle_uuid zip_path zip_subpath = Except.ok t) :
    (t.contents.isSome = true ↔ (t.type = some "directory" ∧ recOpt.isSome = true)) := by
  unfold beamParsed at h
  split at h
  · exact absurd h (by simp)
  · split at h
    · split at h
      · simp only [Except.ok.injEq] at h
        subst h
        simp [TargetInfo.contents, TargetInfo.type]
      · exact absurd h (by simp)
    · split at h
      · have hs := beamDir_ok_shape _ _ _ _ _ _ _ h
        rw [hs.1, hs.2]
        simp [TargetInfo.type]
      · dsimp only at h
        split at h
        · exact absurd h (by simp)
        · split at h
          · simp only [Except.ok.injEq] at h
            subst h
            simp [TargetInfo.contents, TargetInfo.type]
          · have hs := beamDir_ok_shape _ _ _ _ _ _ _ h
            rw [hs.1, hs.2]
            simp [TargetInfo.type]

theorem beamCore_ok_shape (store : BeamStore)
    (recOpt : Option (String → Except PyError TargetInfo)) (path : String) (t : TargetInfo)
    (h : beamCore store recOpt path = Except.ok t) :
    (t.contents.isSome = true ↔ (t.type = some "directory" ∧ recOpt.isSome = true)) := by
  unfold beamCore at h
  split at h
  exact beamParsed_ok_shape _ _ _ _ _ _ _ h

theorem beam_ok_shape (store : BeamStore) (depth : Nat) (path : String) (t : TargetInfo)
    (h : compute_target_info_beam store depth path = Except.ok t) :
    (t.contents.isSome = true ↔ (t.type = some "directory" ∧ 0 < depth)) := by
  cases depth with
  | zero =>
    have := beamCore_ok_shape _ _ _ _ h
    simpa using this
  | succ d =>
    have := beamCore_ok_shape _ _ _ _ h
    simpa using this

theorem localCore_ok_shape (fsys : String → Option FSStat)
    (recOpt : Option (String → Except PyError TargetInfo)) (path : String) (t : TargetInfo)
    (h : localCore fsys recOpt path = Except.ok t) :
    (t.contents.isSome = true ↔ (t.type = some "directory" ∧ recOpt.isSome = true)) := by
  unfold localCore at h
  split at h
  · exact absurd h (by simp)
  · split at h
    · simp only [Except.ok.injEq] at h
      subst h
      simp [TargetInfo.contents, TargetInfo.type]
    · simp only [Except.ok.injEq] at h
      subst h
      simp [TargetInfo.contents, TargetInfo.type]
    · split at h
      · simp only [Except.ok.injEq] at h
        subst h
        simp [TargetInfo.contents, TargetInfo.type]
      · split at h
        · exact absurd h (by simp)
        · simp only [Except.ok.injEq] at h
          subst h
          simp [TargetInfo.contents, TargetInfo.type]
    · simp only [Except.ok.injEq] at h
      subst h
      simp [TargetInfo.contents, TargetInfo.type]

theorem compute_ok_shape (fsys : String → Option FSStat) (store : BeamStore)
    (depth : Nat) (path : String) (t : TargetInfo)
    (h : compute_target_info fsys store depth path = Except.ok t) :
    (t.contents.isSome = true ↔ (t.type = some "directory" ∧ 0 < depth)) := by
  cases depth with
  | zero =>
    unfold compute_target_info at h
    split at h
    · exact beam_ok_shape _ _ _ _ h
    · have := localCore_ok_shape _ _ _ _ h
      simpa using this
  | succ d =>
    unfold compute_target_info at h
    split at h
    · exact beam_ok_shape _ _ _ _ h
    · have := localCore_ok_shape _ _ _ _ h
      simpa using this

/-! ## The claims -/

/-- C1 (amended): for every bundle root, every `realpath` behaviour and
every target, `_get_normalized_target_path` returns only locations whose
text starts with the real bundle root, and fails with `PathException`
(message built from the requested identifier and subpath) whenever the
normalized concatenation does not textually start with the real root.
The original claim's stronger reading — that every `..` subpath whose
normalization escapes the root *directory* is rejected — is refuted by
`c1_counterexample`: the containment check is a textual prefix test
without a trailing separator. -/
theorem c1_textual_containment (realpathF : String → String) (bundle_path : String)
    (target : BundleTarget) :
    (∀ p, get_normalized_target_path realpathF bundle_path target = Except.ok p →
      startswith (real_root realpathF bundle_path) p = true) ∧
    (startswith (real_root realpathF bundle_path)
        (normalized_candidate realpathF bundle_path target) = false →
      get_normalized_target_path realpathF bundle_path target =
        Except.error (error_path target ++ " is not inside the bundle.")) := by
  unfold get_normalized_target_path
  constructor
  · intro p hp
    split at hp
    · rename_i hpre
      simp only [Except.ok.injEq] at hp
      subst hp
      exact hpre
    · exact absurd hp (by simp)
  · intro hfail
    simp [hfail]

/-- Witness for `c1_textual_containment`: the root `/store/bundle` with
subpath `../../etc/passwd` normalizes to `/etc/passwd`, fails the prefix
test, and resolution raises `PathException`. -/
theorem c1_witness :
    startswith (real_root id "/store/bundle")
        (normalized_candidate id "/store/bundle" (BundleTarget.mk "0xaa" "../../etc/passwd")) =
      false ∧
    get_normalized_target_path id "/store/bundle" (BundleTarget.mk "0xaa" "../../etc/passwd") =
      Except.error (error_path (BundleTarget.mk "0xaa" "../../etc/passwd") ++
        " is not inside the bundle.") :=
  ⟨by decide,
   (c1_textual_containment id "/store/bundle" (BundleTarget.mk "0xaa" "../../etc/passwd")).2
     (by decide)⟩

/-- Counterexample to C1 as stated: with bundle root `/data/b`, the
subpath `../b2/x` contains a `..` component and normalizes to
`/data/b2/x`, which lies outside the root directory `/data/b/`, yet
`_get_normalized_target_path` succeeds, because `/data/b2/x` textually
starts with `/data/b`. -/
theorem c1_counterexample :
    subpath_has_dotdot "../b2/x" = true ∧
    get_normalized_target_path id "/data/b" (BundleTarget.mk "0xc1" "../b2/x") =
      Except.ok "/data/b2/x" ∧
    located_inside "/data/b" "/data/b2/x" = false := by
  refine ⟨by decide, by decide, by decide⟩

/-- C9: there is a subpath containing `..` for which resolution succeeds
and returns a location outside the bundle root: with root
`/store/bundle`, the subpath `../bundle2/f` normalizes to
`/store/bundle2/f`, which passes the textual `startswith` containment
check (the root has no trailing separator) although it is not inside the
root directory. -/
theorem c9_sibling_escape :
    subpath_has_dotdot "../bundle2/f" = true ∧
    get_normalized_target_path id "/store/bundle" (BundleTarget.mk "0xc9" "../bundle2/f") =
      Except.ok "/store/bundle2/f" ∧
    startswith "/store/bundle" "/store/bundle2/f" = true ∧
    located_inside "/store/bundle" "/store/bundle2/f" = false := by
  refine ⟨by decide, by decide, by decide, by decide⟩

/-- C8: every failure message of the resolver (`PathException` from the
containment check, `SymlinkNotAllowed`-style failure from the symlink
check) is built from `error_path target` — the concatenation of the
*requested* bundle identifier and subpath — plus fixed text; it is a
function of the target alone (the bundle root, the `realpath` behaviour
and the resolved location never appear in it). -/
theorem c8_error_messages (realpathF : String → String) (islink : String → Bool)
    (bundle_path : String) (target : BundleTarget) (msg : String) :
    (get_normalized_target_path realpathF bundle_path target = Except.error msg →
      msg = error_path target ++ " is not inside the bundle.") ∧
    (get_target_path realpathF islink bundle_path target = Except.error msg →
      msg = error_path target ++ " is not inside the bundle." ∨
      msg = error_path target ++ " is a symlink and following symlinks is not allowed.") := by
  constructor
  · intro h
    unfold get_normalized_target_path at h
    split at h
    · exact absurd h (by simp)
    · simp only [Except.error.injEq] at h
      exact h.symm
  · intro h
    unfold get_target_path at h
    split at h
    · rename_i msg0 hres
      left
      unfold get_normalized_target_path at hres
      split at hres
      · exact absurd hres (by simp)
      · simp only [Except.error.injEq] at hres
        subst hres
        simp only [Except.error.injEq] at h
        exact h.symm
    · split at h
      · right
        simp only [Except.error.injEq] at h
        exact h.symm
      · exact absurd h (by simp)

/-- Witness for `c8_error_messages`: a concrete escaping subpath whose
failure message is exactly the sanitized requested path plus fixed text. -/
theorem c8_witness :
    get_normalized_target_path id "/r" (BundleTarget.mk "0xc8" "../../z") =
      Except.error (error_path (BundleTarget.mk "0xc8" "../../z") ++
        " is not inside the bundle.") ∧
    (error_path (BundleTarget.mk "0xc8" "../../z") ++ " is not inside the bundle.") =
      error_path (BundleTarget.mk "0xc8" "../../z") ++ " is not inside the bundle." :=
  ⟨by decide,
   (c8_error_messages id (fun _ => false) "/r" (BundleTarget.mk "0xc8" "../../z")
       (error_path (BundleTarget.mk "0xc8" "../../z") ++ " is not inside the bundle.")).1
     (by decide)⟩

/-- C4: once resolution selects a concrete location `p`, `get_target_path`
fails with the symlink `PathException` exactly when `p` itself is a
symbolic link, succeeds with `p` when it is not, and its outcome depends
only on the link status of `p` itself — a symlinked *intermediate*
directory (any other path's link status) cannot change the result, so a
path that merely passes through a symlinked directory to a real final
target resolves successfully. -/
theorem c4_symlink_check (realpathF : String → String) (islink islink2 : String → Bool)
    (bundle_path : String) (target : BundleTarget) (p : String)
    (hok : get_normalized_target_path realpathF bundle_path target = Except.ok p) :
    (islink p = true → get_target_path realpathF islink bundle_path target =
      Except.error (error_path target ++ " is a symlink and following symlinks is not allowed.")) ∧
    (islink p = false → get_target_path realpathF islink bundle_path target = Except.ok p) ∧
    (islink2 p = islink p → get_target_path realpathF islink2 bundle_path target =
      get_target_path realpathF islink bundle_path target) := by
  unfold get_target_path
  rw [hok]
  dsimp only
  refine ⟨fun hl => by simp [hl], fun hl => by simp [hl], fun hagree => by rw [hagree]⟩

/-- Witness for `c4_symlink_check`: a target resolving to `/b/s`, with a
filesystem in which `/b/s` is a symbolic link, fails with the symlink
message. -/
theorem c4_witness :
    get_normalized_target_path id "/b" (BundleTarget.mk "0xc4" "s") = Except.ok "/b/s" ∧
    get_target_path id (fun q => q == "/b/s") "/b" (BundleTarget.mk "0xc4" "s") =
      Except.error (error_path (BundleTarget.mk "0xc4" "s") ++
        " is a symlink and following symlinks is not allowed.") :=
  ⟨by decide,
   (c4_symlink_check id (fun q => q == "/b/s") (fun q => q == "/b/s") "/b"
       (BundleTarget.mk "0xc4" "s") "/b/s" (by decide)).1 (by decide)⟩

/-- C3: in every successful indexing result, `contents` is present iff
the node is a directory and the remaining depth budget is positive; at
depth `0` the result never carries `contents`; and for a local directory
at depth `d + 1`, the children are exactly the entries indexed with
budget `d` — each recursion level decrements the budget by one. -/
theorem c3_depth_budget :
    (∀ (fsys : String → Option FSStat) (store : BeamStore) (depth : Nat) (path : String)
        (t : TargetInfo),
      compute_target_info fsys store depth path = Except.ok t →
        (t.contents.isSome = true ↔ (t.type = some "directory" ∧ 0 < depth))) ∧
    (∀ (fsys : String → Option FSStat) (store : BeamStore) (path : String) (t : TargetInfo),
      compute_target_info fsys store 0 path = Except.ok t → t.contents = none) ∧
    (∀ (fsys : String → Option FSStat) (store : BeamStore) (d : Nat) (path : String)
        (t : TargetInfo) (st : FSStat) (entries : List String),
      startswith "azfs://" path = false → fsys path = some st →
      st.kind = FSKind.dir entries →
      compute_target_info fsys store (Nat.succ d) path = Except.ok t →
      ∃ cs, entries.mapM
          (fun file_name => compute_target_info fsys store d (pyJoin path file_name)) =
          Except.ok cs ∧
        t.contents = some cs) := by
  refine ⟨fun fsys store depth path t h => compute_ok_shape fsys store depth path t h,
    fun fsys store path t h => ?_, fun fsys store d path t st entries hazfs hfs hkind h => ?_⟩
  · have := compute_ok_shape fsys store 0 path t h
    simp only [Nat.lt_irrefl, and_false, iff_false] at this
    exact Option.not_isSome_iff_eq_none.mp (by simpa using this)
  · simp only [compute_target_info, hazfs, Bool.false_eq_true, if_false] at h
    unfold localCore at h
    rw [hfs] at h
    dsimp only at h
    rw [hkind] at h
    dsimp only at h
    rcases hm : entries.mapM
        (fun file_name => compute_target_info fsys store d (pyJoin path file_name)) with err | cs
    · rw [hm] at h
      exact absurd h (by simp)
    · rw [hm] at h
      simp only [Except.ok.injEq] at h
      subst h
      exact ⟨cs, rfl, rfl⟩

/-- Witness for `c3_depth_budget`: a local directory `/r` with one file
`x`, indexed at depth 1, yields a directory node whose `contents` hold
the file indexed at depth 0. -/
theorem c3_witness :
    compute_target_info
        (fun p => if p = "/r" then some (FSStat.mk 493 4096 (FSKind.dir ["x"]))
          else if p = "/r/x" then some (FSStat.mk 420 11 FSKind.file) else none)
        (BeamStore.mk [] none) 1 "/r" =
      Except.ok (TargetInfo.mk "r" (some "directory") 4096 493 none
        (some [TargetInfo.mk "x" (some "file") 11 420 none none none none]) none none) ∧
    ((TargetInfo.mk "r" (some "directory") 4096 493 none
        (some [TargetInfo.mk "x" (some "file") 11 420 none none none none])
        none none).contents.isSome = true ↔
      ((TargetInfo.mk "r" (some "directory") 4096 493 none
        (some [TargetInfo.mk "x" (some "file") 11 420 none none none none])
        none none).type = some "directory" ∧ 0 < 1)) :=
  ⟨rfl,
   c3_depth_budget.1
     (fun p => if p = "/r" then some (FSStat.mk 493 4096 (FSKind.dir ["x"]))
       else if p = "/r/x" then some (FSStat.mk 420 11 FSKind.file) else none)
     (BeamStore.mk [] none) 1 "/r"
     (TargetInfo.mk "r" (some "directory") 4096 493 none
       (some [TargetInfo.mk "x" (some "file") 11 420 none none none none]) none none) rfl⟩

/-- Invariant of the chunked read loop: starting from a state that has
fed `fed` and emitted everything `fed` determines, folding over further
chunks accumulates exactly the decompression of the full input, provided
the decompressor is monotone (more input only extends the output). -/
theorem stepChunk_fold_inv (D : List Nat → List Nat)
    (hmono : ∀ xs ys, ∃ ext, D xs ++ ext = D (xs ++ ys)) :
    ∀ (cs : List (List Nat)) (fed : List Nat),
      (cs.foldl (fun p c => stepChunk D p.1 p.2 c)
        (D fed, DecompState.mk fed (D fed).length)).1 = D (fed ++ cs.flatten) := by
  intro cs
  induction cs with
  | nil => intro fed; simp
  | cons c rest ih =>
    intro fed
    have hstep : stepChunk D (D fed) (DecompState.mk fed (D fed).length) c =
        (D (fed ++ c), DecompState.mk (fed ++ c) (D (fed ++ c)).length) := by
      obtain ⟨ext, hext⟩ := hmono fed c
      unfold stepChunk feedChunk readAvailable
      dsimp only
      rw [← hext]
      simp [List.drop_left]
    rw [List.foldl_cons, hstep, ih (fed ++ c)]
    simp

/-- C7: decompressing an entry body through the resumable reader while
the byte source is appended to chunk by chunk yields exactly the bytes
the decompressor produces from the complete buffer at once, for every
streaming (monotone, nothing-from-nothing) decompressor and every way of
splitting the compressed bytes into chunks — the state is never
reinitialised between reads. -/
theorem c7_incremental_refinement (D : List Nat → List Nat) (hnil : D [] = [])
    (hmono : ∀ xs ys, ∃ ext, D xs ++ ext = D (xs ++ ys)) (chunks : List (List Nat)) :
    runChunked D chunks = D chunks.flatten := by
  unfold runChunked
  have hstart : ((D [], DecompState.mk [] (D []).length) :
      List Nat × DecompState) = (([] : List Nat), DecompState.mk [] 0) := by
    rw [hnil]
    rfl
  have h := stepChunk_fold_inv D hmono chunks []
  rw [hstart] at h
  simpa using h

/-- Witness for `c7_incremental_refinement`: the spec's concrete
scenario — a stored 11-byte entry `"hello world"` (decompression is the
identity) fed one compressed byte at a time reproduces `"hello world"`
byte for byte. -/
theorem c7_witness : runChunked (fun l => l) helloChunks = helloBytes := by
  have h := c7_incremental_refinement (fun l => l) rfl (fun xs ys => ⟨ys, rfl⟩) helloChunks
  rw [h]
  decide

/-- C2 (evaluation at the failing input): on the spec's archive fixture
`zipC2`, the listing of internal directory `a/` at depth 1 presents the
directory itself (`a/`) and the grandchild `a/b/file.txt` as direct
children; the listing of `a/b/` *omits* its own member `a/b/file.txt`
(the `dirs` filter excludes any file some directory outside the prefix
is a textual prefix of, and `a/` qualifies); the whole-archive listing
at depth 1 presents all seven entries as direct children, so
`a/b/file.txt` is a direct child of both the root node and the `a/`
node while missing from its true parent `a/b/`.  The claim's property —
each entry a direct child of exactly its nearest enclosing directory
node, no duplication, no omission — fails on the code. -/
theorem c2_flattened_children :
    okContentsNames (compute_target_info_beam (BeamStore.mk zipC2 none) 1
        "azfs://storageclwsdev0/bundles/0xb/contents.zip/a/") =
      ["a/", "a/b/", "file.txt"] ∧
    okContentsNames (compute_target_info_beam (BeamStore.mk zipC2 none) 1
        "azfs://storageclwsdev0/bundles/0xb/contents.zip/a/b/") =
      ["a/b/"] ∧
    okContentsNames (compute_target_info_beam (BeamStore.mk zipC2 none) 1
        "azfs://storageclwsdev0/bundles/0xb/contents.zip") =
      ["a/", "a/b/", "file.txt", "c/", "c/d/", "c/d/e/", "file.txt"] :=
  ⟨rfl, rfl, rfl⟩

/-- C5 (evaluation at the failing input): requesting the internal path
`missing/` from an archive containing only `file.txt` fails with the
`KeyError` that `ZipFile.getinfo` raises, not with the repository's
declared `PathException`/`NotFound` error kind. -/
theorem c5_missing_entry_keyerror :
    compute_target_info_beam (BeamStore.mk [ZipEntry.mk "file.txt" 11] none) 1
      "azfs://acct/bundles/0xabc/contents.zip/missing/" =
      Except.error (PyError.keyError "missing/") :=
  rfl

/-- C6 (evaluation at the failing input): for a remote-archive bundle
location, `get_target_info` skips its existence check (line 65 tests
`not final_path.startswith("azfs://")`), so a nonexistent member
`missing.txt` surfaces as the bare `KeyError` from `ZipFile.getinfo`
instead of the `PathException` the docstring and the claim promise. -/
theorem c6_missing_remote_keyerror :
    get_target_info id (fun _ => false) (fun _ => false) (fun _ => none)
      (BeamStore.mk [ZipEntry.mk "file.txt" 11] none)
      "azfs://acct/bundles/0xabc/contents.zip" (BundleTarget.mk "0xabc" "missing.txt") 1 =
      Except.error (PyError.keyError "missing.txt") :=
  rfl

/-- C10: for every blob store, every depth and every location whose
parsed internal path is the string `/images/`, the indexer raises the
bare `Exception((path, zip_subpath))` of line 145 — a generic exception,
not one of the declared error kinds — regardless of the archive's
contents or of whether the path exists in it. -/
theorem c10_images_generic_exception (store : BeamStore) (depth : Nat) (path : String)
    (h : (parse_azure_url path).2.2 = "/images/") :
    compute_target_info_beam store depth path =
      Except.error (PyError.genericException path "/images/") := by
  have core : ∀ recOpt, beamCore store recOpt path =
      Except.error (PyError.genericException path "/images/") := by
    intro recOpt
    unfold beamCore
    rcases hp : parse_azure_url path with ⟨u, zp, sp⟩
    have hsp : sp = "/images/" := by rw [hp] at h; exact h
    subst hsp
    unfold beamParsed
    simp
  cases depth with
  | zero => exact core none
  | succ d => exact core (some (compute_target_info_beam store d))

/-- Witness for `c10_images_generic_exception`: a concrete locator whose
internal path parses to `/images/`, over an empty archive. -/
theorem c10_witness :
    (parse_azure_url "azfs://a/b/u/contents.zip//images/").2.2 = "/images/" ∧
    compute_target_info_beam (BeamStore.mk [] none) 3 "azfs://a/b/u/contents.zip//images/" =
      Except.error (PyError.genericException "azfs://a/b/u/contents.zip//images/" "/images/") :=
  ⟨by decide,
   c10_images_generic_exception (BeamStore.mk [] none) 3
     "azfs://a/b/u/contents.zip//images/" (by decide)⟩
